import Mathlib

/-!
Verification development for the reactor/event-loop bridging and scheduling
subsystem (scrapy/utils/reactor.py) and the memory-usage monitoring extension
(scrapy/extensions/memusage.py).

Each Python function is embedded as an executable Lean definition over an
explicit state type.  Machine-level details that the properties do not touch
(actual sockets, the OS resource module, real wall-clock delays) are made
explicit parameters of the model: for example the scheduling substrate is a
queue of timer entries, and the raw memory sample of each tick is an input of
the tick function.
-/

namespace CLO

/-- A timer entry created by the `call_later` scheduling substrate.  `id` is the
handle identity returned by `call_later`, `delay` the requested delay, and
`cancelled` records whether `.cancel()` has been invoked on the handle. -/
structure Timer where
  id : Nat
  delay : Nat
  cancelled : Bool
  deriving DecidableEq

/-- Instance state of `CallLaterOnce` (reactor.py lines 50-92): `a` holds the
positional arguments bound in `__init__` (abstracted as natural numbers),
`call` the `_call` handle (`none` models Python `None`), and `deferreds` the
`_deferreds` waiter list (each waiter abstracted by an identifier). -/
structure CallLaterOnce where
  a : List Nat
  call : Option Nat
  deferreds : List Nat
  deriving DecidableEq

/-- `CallLaterOnce.__init__`: bind the arguments, no pending call, no waiters. -/
def CallLaterOnce.init (a : List Nat) : CallLaterOnce := ⟨a, none, []⟩

/-- Whole-system state: the instance, the scheduling substrate queue of timers,
a fresh-id counter for timer handles, the log of invocations of the wrapped
callable (each entry records the argument tuple it was invoked with), and the
log of waiter callbacks handed to `call_later 0 d.callback`. -/
structure Sys where
  clo : CallLaterOnce
  timers : List Timer
  nextId : Nat
  invocations : List (List Nat)
  callbacks : List Nat
  deriving DecidableEq

/-- A freshly constructed `CallLaterOnce` in a quiescent scheduling substrate. -/
def Sys.init (a : List Nat) : Sys := ⟨CallLaterOnce.init a, [], 0, [], []⟩

/-- `CallLaterOnce.schedule` (reactor.py lines 62-67): only when `_call is None`
does it create a new pending call via `call_later(delay, self)`; otherwise the
call is a no-op. -/
def schedule (delay : Nat) (s : Sys) : Sys :=
  if s.clo.call = none then
    { s with clo := { s.clo with call := some s.nextId },
             timers := s.timers ++ [⟨s.nextId, delay, false⟩],
             nextId := s.nextId + 1 }
  else s

/-- `CallLaterOnce.cancel` (reactor.py lines 69-71): if `_call` is truthy,
cancel the underlying timer.  Note that `_call` itself is NOT reset to `None`. -/
def cancel (s : Sys) : Sys :=
  match s.clo.call with
  | none => s
  | some cid =>
      { s with timers := s.timers.map fun t =>
          if t.id = cid then { t with cancelled := true } else t }

/-- `CallLaterOnce.__call__` (reactor.py lines 73-84).  The wrapped callable is
modelled as an arbitrary state transformer `body` returning either `.ok` or a
raised exception `.error e`; the concrete bodies used in the theorems are the
pure callable, a callable that re-enters `schedule`, and a raising callable.
The order of effects follows the source: first `self._call = None`, then the
callable is invoked with the bound arguments (logged in `invocations`), and
only on normal return are the waiters resolved (`call_later(0, d.callback)`
for each, logged in `callbacks`) and `_deferreds` cleared.  If the callable
raises, the exception propagates immediately and the remaining lines do not
run. -/
def fire (body : Sys → Sys × Except String Unit) (s : Sys) : Sys × Option String :=
  let s1 : Sys := { s with clo := { s.clo with call := none },
                           invocations := s.invocations ++ [s.clo.a] }
  let p := body s1
  match p.2 with
  | Except.ok _ =>
      ({ p.1 with callbacks := p.1.callbacks ++ p.1.clo.deferreds,
                  clo := { p.1.clo with deferreds := [] } }, none)
  | Except.error e => (p.1, some e)

/-- `CallLaterOnce.wait` (reactor.py lines 86-92): append a fresh Deferred
(abstracted by the identifier `did`) to `_deferreds`. -/
def wait (did : Nat) (s : Sys) : Sys :=
  { s with clo := { s.clo with deferreds := s.clo.deferreds ++ [did] } }

/-- The scheduling substrate dispatches timer `tid`: this happens only when a
non-cancelled timer with that id is in the queue; the timer is consumed and
`CallLaterOnce.__call__` runs. -/
def dispatch (tid : Nat) (body : Sys → Sys × Except String Unit) (s : Sys) :
    Option (Sys × Option String) :=
  if s.timers.any fun t => t.id == tid && !t.cancelled then
    some (fire body { s with timers := s.timers.filter fun t => t.id != tid })
  else none

end CLO

namespace MemUsage

/-- Observable effects of the MemoryUsage extension, in the order they occur:
stats writes (`set_value` / `max_value`), log records at the three severities
used by the code, a report email handed to `MailSender.send` (its body, built
by `_send_report`, is abstracted away; recipients and subject are kept), and
the shutdown requests issued on a limit breach. -/
inductive Event where
  | setStat (key : String) (value : Nat)
  | maxStat (key : String) (value : Nat)
  | logError (memusageMiB : Nat)
  | logInfo (virtualsizeMiB : Nat)
  | logWarning (memusageMiB : Nat)
  | sendReport (rcpts : List String) (subject : String)
  | closeSpider (reason : String)
  | stopCrawler
  deriving DecidableEq

/-- State of a `MemoryUsage` instance (memusage.py lines 34-143) plus its
environment: `platform` is `sys.platform`, `spiderActive` whether
`crawler.engine.spider is not None`; `limit` and `warning` are already in
bytes (the constructor multiplies the MB settings by `1024 * 1024`); `stats`
is the stats collector (most recent write first) and `events` the chronological
log of observable effects. -/
structure MU where
  platform : String
  botName : String
  hostname : String
  warned : Bool
  notify_mails : List String
  limit : Nat
  warning : Nat
  spiderActive : Bool
  stats : List (String × Nat)
  events : List Event
  deriving DecidableEq

/-- `StatsCollector.set_value`, with the write also recorded in the event log. -/
def set_value (key : String) (v : Nat) (m : MU) : MU :=
  { m with stats := (key, v) :: m.stats, events := m.events ++ [Event.setStat key v] }

/-- `StatsCollector.max_value`: store the max of the current value (missing
counts as the new value) and the new value. -/
def max_value (key : String) (v : Nat) (m : MU) : MU :=
  { m with stats := (key, max ((m.stats.lookup key).getD v) v) :: m.stats,
           events := m.events ++ [Event.maxStat key v] }

/-- Append a log / mail / shutdown effect. -/
def logEvent (e : Event) (m : MU) : MU :=
  { m with events := m.events ++ [e] }

/-- `MemoryUsage.get_virtual_size` (memusage.py lines 60-65): `raw` is the
`ru_maxrss` sample; on every platform other than darwin it is reported in
kibibytes and scaled by 1024, on darwin it is already in bytes. -/
def get_virtual_size (platform : String) (raw : Nat) : Nat :=
  if platform ≠ "darwin" then raw * 1024 else raw

/-- `MemoryUsage.update` (memusage.py lines 88-90): track the running maximum. -/
def update (m : MU) (raw : Nat) : MU :=
  max_value "memusage/max" (get_virtual_size m.platform raw) m

/-- `MemoryUsage._check_limit` (memusage.py lines 92-122), one tick with raw
sample `raw`.  Python float division `limit / 1024 / 1024` is rendered with
`%d` in the log record and embedded in the mail subject; it is modelled as
natural division, exact because the constructor makes `limit` a multiple of
`1024 * 1024`. -/
def _check_limit (m : MU) (raw : Nat) : MU :=
  let peak_mem_usage := get_virtual_size m.platform raw
  if peak_mem_usage > m.limit then
    let m1 := set_value "memusage/limit_reached" 1 m
    let mem := m1.limit / 1024 / 1024
    let m2 := logEvent (Event.logError mem) m1
    let m3 :=
      if m2.notify_mails ≠ [] then
        set_value "memusage/limit_notified" 1
          (logEvent (Event.sendReport m2.notify_mails
            (m2.botName ++ " terminated: memory usage exceeded " ++ toString mem
              ++ "MiB at " ++ m2.hostname)) m2)
      else m2
    if m3.spiderActive then logEvent (Event.closeSpider "memusage_exceeded") m3
    else logEvent Event.stopCrawler m3
  else
    logEvent (Event.logInfo (peak_mem_usage / 1024 / 1024)) m

/-- `MemoryUsage._check_warning` (memusage.py lines 124-143), one tick. -/
def _check_warning (m : MU) (raw : Nat) : MU :=
  if m.warned then m
  else if get_virtual_size m.platform raw > m.warning then
    let m1 := set_value "memusage/warning_reached" 1 m
    let mem := m1.warning / 1024 / 1024
    let m2 := logEvent (Event.logWarning mem) m1
    let m3 :=
      if m2.notify_mails ≠ [] then
        set_value "memusage/warning_notified" 1
          (logEvent (Event.sendReport m2.notify_mails
            (m2.botName ++ " warning: memory usage reached " ++ toString mem
              ++ "MiB at " ++ m2.hostname)) m2)
      else m2
    { m3 with warned := true }
  else m

/-- Count of report emails in an event log. -/
def mailCount (evs : List Event) : Nat :=
  evs.countP fun e => match e with | Event.sendReport _ _ => true | _ => false

/-- Count of severity-error breach log records. -/
def errorLogCount (evs : List Event) : Nat :=
  evs.countP fun e => match e with | Event.logError _ => true | _ => false

/-- Count of severity-warning log records. -/
def warningLogCount (evs : List Event) : Nat :=
  evs.countP fun e => match e with | Event.logWarning _ => true | _ => false

/-- Count of `set_value` writes to a given stats key. -/
def setStatCount (key : String) (evs : List Event) : Nat :=
  evs.countP fun e => match e with | Event.setStat k _ => k == key | _ => false

/-- The block of events one `_check_limit` tick appends, as a function of the
tick configuration (which the tick itself never changes) and the raw sample. -/
def limitTickEvents (m : MU) (raw : Nat) : List Event :=
  if get_virtual_size m.platform raw > m.limit then
    [Event.setStat "memusage/limit_reached" 1,
     Event.logError (m.limit / 1024 / 1024)]
    ++ (if m.notify_mails ≠ [] then
          [Event.sendReport m.notify_mails
             (m.botName ++ " terminated: memory usage exceeded "
               ++ toString (m.limit / 1024 / 1024) ++ "MiB at " ++ m.hostname),
           Event.setStat "memusage/limit_notified" 1]
        else [])
    ++ [if m.spiderActive then Event.closeSpider "memusage_exceeded"
        else Event.stopCrawler]
  else [Event.logInfo (get_virtual_size m.platform raw / 1024 / 1024)]

/-- The block of events the breach branch of `_check_warning` appends. -/
def warningTickEvents (m : MU) : List Event :=
  [Event.setStat "memusage/warning_reached" 1,
   Event.logWarning (m.warning / 1024 / 1024)]
  ++ (if m.notify_mails ≠ [] then
        [Event.sendReport m.notify_mails
           (m.botName ++ " warning: memory usage reached "
             ++ toString (m.warning / 1024 / 1024) ++ "MiB at " ++ m.hostname),
         Event.setStat "memusage/warning_notified" 1]
      else [])


/-- A concrete configured instance: linux platform, a 1 MiB limit, a 1 MiB
warning threshold, one mail recipient, a spider active. -/
def muCex : MU :=
  { platform := "linux", botName := "scrapybot", hostname := "host1",
    warned := false, notify_mails := ["admin@example.com"],
    limit := 1024 * 1024, warning := 1024 * 1024, spiderActive := true,
    stats := [], events := [] }

end MemUsage

namespace Reactor

/-- An asyncio event loop instance: its concrete class (identified by the
path `load_object` resolves it from, identities being paths) and an instance
identity, so that "returns the already-bound loop" and "constructs a new loop"
are distinguishable states.  `isinstance(loop, cls)` is modelled as class
equality (identities here are concrete implementation classes). -/
structure LoopInst where
  cls : String
  instId : Nat
  deriving DecidableEq

/-- Process-wide state read and written by reactor.py: whether (and with which
implementation identity) a Twisted reactor is installed — `installedReactor =
some path` models both `"twisted.internet.reactor" in sys.modules` and
`type(reactor)` — the asyncio current event loop binding, the event loop an
installed AsyncioSelectorReactor was bound to, and a fresh-id counter for loop
construction. -/
structure RState where
  installedReactor : Option String
  currentLoop : Option LoopInst
  reactorLoop : Option LoopInst
  nextLoopId : Nat
  deriving DecidableEq

/-- reactor.py line 95. -/
def _asyncio_reactor_path : String :=
  "twisted.internet.asyncioreactor.AsyncioSelectorReactor"

/-- The class `asyncio.get_event_loop` / `asyncio.new_event_loop` produce when
no loop is bound yet (the default selector event loop of the platform). -/
def defaultLoopCls : String := "asyncio.SelectorEventLoop"

/-- `set_asyncio_event_loop` (reactor.py lines 133-163).  With an explicit
path: resolve the class, take the current loop (`_get_asyncio_event_loop`,
which creates and binds a default loop when none is bound); if it is not an
instance of the class, construct a new loop of that class and bind it.  With
no path: return the bound loop, or create and bind a default one (the
`get_event_loop` DeprecationWarning / RuntimeError paths both collapse to
this). -/
def set_asyncio_event_loop (event_loop_path : Option String) (s : RState) :
    LoopInst × RState :=
  match event_loop_path with
  | some p =>
      let pr : LoopInst × RState :=
        match s.currentLoop with
        | some l => (l, s)
        | none =>
            let l : LoopInst := ⟨defaultLoopCls, s.nextLoopId⟩
            (l, { s with currentLoop := some l, nextLoopId := s.nextLoopId + 1 })
      if pr.1.cls = p then pr
      else
        let l : LoopInst := ⟨p, pr.2.nextLoopId⟩
        (l, { pr.2 with currentLoop := some l, nextLoopId := pr.2.nextLoopId + 1 })
  | none =>
      match s.currentLoop with
      | some l => (l, s)
      | none =>
          let l : LoopInst := ⟨defaultLoopCls, s.nextLoopId⟩
          (l, { s with currentLoop := some l, nextLoopId := s.nextLoopId + 1 })

/-- `_get_asyncio_event_loop` (reactor.py lines 129-130). -/
def _get_asyncio_event_loop (s : RState) : LoopInst × RState :=
  set_asyncio_event_loop none s

/-- `asyncioreactor.install(eventloop=...)`: raises
`ReactorAlreadyInstalledError` when a reactor is installed, otherwise installs
the AsyncioSelectorReactor bound to the given loop. -/
def asyncioreactor_install (loop : LoopInst) (s : RState) : Except Unit RState :=
  match s.installedReactor with
  | some _ => Except.error ()
  | none => Except.ok { s with installedReactor := some _asyncio_reactor_path,
                               reactorLoop := some loop }

/-- The `install` entry point of a non-asyncio reactor module
(`load_object(module + ".install")()`): raises `ReactorAlreadyInstalledError`
when a reactor is installed, otherwise installs that module's reactor. -/
def module_install (reactor_path : String) (s : RState) : Except Unit RState :=
  match s.installedReactor with
  | some _ => Except.error ()
  | none => Except.ok { s with installedReactor := some reactor_path }

/-- `install_reactor` (reactor.py lines 111-126).  For the asyncio reactor:
(policy adjustment, a no-op outside win32, is elided), then inside
`suppress(ReactorAlreadyInstalledError)` first resolve/bind the event loop and
then install the reactor bound to it — when the install raises because a
reactor is already installed the exception is swallowed, keeping the state the
suppressed block had reached.  For any other reactor path: call the module
installer inside the same suppression. -/
def install_reactor (reactor_path : String) (event_loop_path : Option String)
    (s : RState) : RState :=
  if reactor_path = _asyncio_reactor_path then
    let pr := set_asyncio_event_loop event_loop_path s
    match asyncioreactor_install pr.1 pr.2 with
    | Except.ok s2 => s2
    | Except.error _ => pr.2
  else
    match module_install reactor_path s with
    | Except.ok s2 => s2
    | Except.error _ => s

/-- `is_reactor_installed` (reactor.py lines 212-214). -/
def is_reactor_installed (s : RState) : Bool :=
  s.installedReactor.isSome

/-- `global_object_name` applied to a class: renders its import path; class
identities are already import paths in this model. -/
def global_object_name (cls : String) : String := cls

/-- `verify_installed_reactor` (reactor.py lines 166-183): `RuntimeError` when
no reactor is installed, `RuntimeError` naming both identities when the
installed type differs from `load_object(reactor_path)`, normal return
otherwise.  Errors are the raised message strings. -/
def verify_installed_reactor (reactor_path : String) (s : RState) :
    Except String Unit :=
  match s.installedReactor with
  | none =>
      Except.error "verify_installed_reactor() called without an installed reactor."
  | some installed =>
      if installed = reactor_path then Except.ok ()
      else
        Except.error ("The installed reactor (" ++ global_object_name installed
          ++ ") does not match the requested one (" ++ reactor_path ++ ")")

end Reactor

namespace Listen

/-- A successfully bound TCP listener (`twisted.internet.tcp.Port`), carrying
the port it is bound to. -/
structure Port where
  num : Int
  deriving DecidableEq

/-- Errors `listen_tcp` can raise: the `ValueError` for a malformed range, or
a propagated `CannotListenError` (the port it was raised for, plus the
underlying error detail supplied by the bind environment). -/
inductive ListenError where
  | valueError (portrange : List Int)
  | cannotListen (port : Int) (err : String)
  deriving DecidableEq

/-- Python `range(lo, hi)` as a list. -/
def pyRange (lo hi : Int) : List Int :=
  (List.range (hi - lo).toNat).map fun i => lo + i

/-- The `for x in range(portrange[0], portrange[1] + 1)` loop of `listen_tcp`
(reactor.py lines 42-47): try to bind each port; on `CannotListenError`
re-raise only when `x == portrange[1]`, else continue; falling off the end of
the loop returns Python `None`, modelled as `Except.ok none`. -/
def listenLoop (tryBind : Int → Except String Port) (lastPort : Int) :
    List Int → Except ListenError (Option Port)
  | [] => Except.ok none
  | x :: rest =>
      match tryBind x with
      | Except.ok p => Except.ok (some p)
      | Except.error e =>
          if x = lastPort then Except.error (ListenError.cannotListen x e)
          else listenLoop tryBind lastPort rest

/-- `listen_tcp` (reactor.py lines 32-47).  `tryBind` is the
`reactor.listenTCP` environment, deciding for each requested port whether the
bind succeeds or raises `CannotListenError`; `tryBind 0` is the
any-free-port bind.  The source checks `len(portrange) > 2` first and then
destructures; here the length check is the final catch-all branch of the same
destructuring, which covers exactly the lists of length greater than two. -/
def listen_tcp (portrange : List Int) (tryBind : Int → Except String Port) :
    Except ListenError (Option Port) :=
  match portrange with
  | [] =>
      match tryBind 0 with
      | Except.ok p => Except.ok (some p)
      | Except.error e => Except.error (ListenError.cannotListen 0 e)
  | [p] =>
      match tryBind p with
      | Except.ok pt => Except.ok (some pt)
      | Except.error e => Except.error (ListenError.cannotListen p e)
  | [lo, hi] => listenLoop tryBind hi (pyRange lo (hi + 1))
  | _ => Except.error (ListenError.valueError portrange)


/-- A concrete bind environment: ports 8000 and 8001 are occupied (binding
them raises CannotListenError), every other port binds successfully. -/
def tbBusy : Int → Except String Port := fun n =>
  if n = 8000 ∨ n = 8001 then Except.error "port in use" else Except.ok ⟨n⟩

end Listen

open CLO in
theorem CLO.schedule_of_pending (d : Nat) (s : Sys) (h : ¬ s.clo.call = none) :
    schedule d s = s := by
  simp [schedule, h]

open CLO in
theorem CLO.foldl_schedule_of_pending (ds : List Nat) (s : Sys)
    (h : ¬ s.clo.call = none) :
    ds.foldl (fun t d => schedule d t) s = s := by
  induction ds with
  | nil => rfl
  | cons d ds ih =>
      rw [List.foldl_cons, CLO.schedule_of_pending d s h]
      exact ih

/-- Claim C1: starting from a quiescent state (`_call is None`, no timer
pending), the first `schedule` creates the single pending call; every further
`schedule` issued before it fires leaves the whole state unchanged (no second
timer is queued and the delay of the pending timer is not reset); dispatching
the pending timer invokes the callable exactly once, with the argument tuple
bound at construction (the `a` field, written only by `__init__`), and leaves
no timer behind, so no further invocation can occur. -/
theorem claim_C1_schedule_coalesces (s : CLO.Sys) (d0 : Nat) (ds : List Nat)
    (hcall : s.clo.call = none) (ht : s.timers = []) :
    ds.foldl (fun t d => CLO.schedule d t) (CLO.schedule d0 s) = CLO.schedule d0 s ∧
    (CLO.schedule d0 s).timers = [⟨s.nextId, d0, false⟩] ∧
    (CLO.schedule d0 s).clo.a = s.clo.a ∧
    CLO.dispatch s.nextId (fun t => (t, Except.ok ())) (CLO.schedule d0 s) =
      some ({ clo := { a := s.clo.a, call := none, deferreds := [] },
              timers := [],
              nextId := s.nextId + 1,
              invocations := s.invocations ++ [s.clo.a],
              callbacks := s.callbacks ++ s.clo.deferreds }, none) := by
  refine ⟨?_, ?_, ?_, ?_⟩
  · exact CLO.foldl_schedule_of_pending ds _ (by simp [CLO.schedule, hcall])
  · simp [CLO.schedule, hcall, ht]
  · simp [CLO.schedule, hcall]
  · simp [CLO.schedule, CLO.dispatch, CLO.fire, hcall, ht]

theorem claim_C1_schedule_coalesces_witness :
    (CLO.Sys.init [1, 2]).clo.call = none ∧
    (CLO.Sys.init [1, 2]).timers = [] ∧
    List.foldl (fun t d => CLO.schedule d t) (CLO.schedule 0 (CLO.Sys.init [1, 2])) [0, 3, 5] =
      CLO.schedule 0 (CLO.Sys.init [1, 2]) :=
  ⟨rfl, rfl, (claim_C1_schedule_coalesces (CLO.Sys.init [1, 2]) 0 [0, 3, 5] rfl rfl).1⟩

/-- Claim C2 (amended): when a `CallLaterOnce` fires, it clears the pending
marker before invoking the callable — so a `schedule` issued from inside the
callable is treated as fresh and creates a new pending call — then invokes the
callable with its bound arguments; on normal return every waiter registered via
`wait` is resolved (its callback is handed to the scheduler) and the waiter
list is cleared.  If the callable raises, the error propagates to the
scheduler's normal error channel and the registered waiters are NOT released:
the waiter list is left unchanged and no callback is scheduled. -/
theorem claim_C2_fire_behaviour (s : CLO.Sys) (e : String) (d : Nat) :
    (CLO.fire (fun t => (CLO.schedule d t, Except.ok ())) s).1.clo.call = some s.nextId ∧
    CLO.fire (fun t => (t, Except.ok ())) s =
      ({ s with clo := { s.clo with call := none, deferreds := [] },
                invocations := s.invocations ++ [s.clo.a],
                callbacks := s.callbacks ++ s.clo.deferreds }, none) ∧
    CLO.fire (fun t => (t, Except.error e)) s =
      ({ s with clo := { s.clo with call := none },
                invocations := s.invocations ++ [s.clo.a] }, some e) := by
  refine ⟨?_, rfl, rfl⟩
  simp [CLO.fire, CLO.schedule]

/-- Claim C2, counterexample to the claim as stated: with one waiter registered
and a raising callable, the fire does NOT clear the waiter list and does NOT
schedule its completion callback, contradicting "the registered waiters are
still released". -/
theorem claim_C2_fire_error_counterexample :
    ¬ ((CLO.fire (fun t => (t, Except.error "boom")) (CLO.wait 7 (CLO.Sys.init [1]))).1.clo.deferreds = [] ∧
       (CLO.fire (fun t => (t, Except.error "boom")) (CLO.wait 7 (CLO.Sys.init [1]))).1.callbacks = [7]) := by
  decide

/-- Claim C9: `cancel` after `schedule` cancels the underlying timer but leaves
the `_call` handle set; therefore every subsequent `schedule` is a no-op (the
state is a fixed point of arbitrary further `schedule` sequences), the only
timer in the queue is cancelled so the substrate can never dispatch it, and the
callable is never invoked again through `schedule` for the lifetime of the
instance. -/
theorem claim_C9_cancel_latches (s : CLO.Sys) (d : Nat) (ds : List Nat)
    (hcall : s.clo.call = none) (ht : s.timers = []) :
    (CLO.cancel (CLO.schedule d s)).clo.call = some s.nextId ∧
    (CLO.cancel (CLO.schedule d s)).timers = [⟨s.nextId, d, true⟩] ∧
    ds.foldl (fun t d2 => CLO.schedule d2 t) (CLO.cancel (CLO.schedule d s)) =
      CLO.cancel (CLO.schedule d s) ∧
    (∀ (tid : Nat) (body : CLO.Sys → CLO.Sys × Except String Unit),
        CLO.dispatch tid body (CLO.cancel (CLO.schedule d s)) = none) ∧
    (CLO.cancel (CLO.schedule d s)).invocations = s.invocations := by
  refine ⟨?_, ?_, ?_, ?_, ?_⟩
  · simp [CLO.schedule, CLO.cancel, hcall, ht]
  · simp [CLO.schedule, CLO.cancel, hcall, ht]
  · refine CLO.foldl_schedule_of_pending ds _ ?_
    simp [CLO.schedule, CLO.cancel, hcall, ht]
  · intro tid body
    simp [CLO.schedule, CLO.cancel, CLO.dispatch, hcall, ht]
  · simp [CLO.schedule, CLO.cancel, hcall, ht]

theorem claim_C9_cancel_latches_witness :
    (CLO.Sys.init [4]).clo.call = none ∧
    (CLO.Sys.init [4]).timers = [] ∧
    (CLO.cancel (CLO.schedule 2 (CLO.Sys.init [4]))).timers = [⟨0, 2, true⟩] :=
  ⟨rfl, rfl, (claim_C9_cancel_latches (CLO.Sys.init [4]) 2 [] rfl rfl).2.1⟩

namespace MemUsage

theorem check_limit_events (m : MU) (raw : Nat) :
    (_check_limit m raw).events = m.events ++ limitTickEvents m raw := by
  by_cases h1 : get_virtual_size m.platform raw > m.limit
  · by_cases h2 : m.notify_mails = [] <;> by_cases h3 : m.spiderActive <;>
      simp [_check_limit, limitTickEvents, set_value, logEvent, h1, h2, h3]
  · simp [_check_limit, limitTickEvents, logEvent, h1]

theorem check_limit_keeps_config (m : MU) (raw : Nat) :
    (_check_limit m raw).platform = m.platform ∧
    (_check_limit m raw).limit = m.limit ∧
    (_check_limit m raw).notify_mails = m.notify_mails ∧
    (_check_limit m raw).botName = m.botName ∧
    (_check_limit m raw).hostname = m.hostname ∧
    (_check_limit m raw).spiderActive = m.spiderActive := by
  by_cases h1 : get_virtual_size m.platform raw > m.limit
  · by_cases h2 : m.notify_mails = [] <;> by_cases h3 : m.spiderActive <;>
      simp [_check_limit, set_value, logEvent, h1, h2, h3]
  · simp [_check_limit, logEvent, h1]

theorem limitTick_congr (m : MU) (raw r2 : Nat) :
    limitTickEvents (_check_limit m raw) r2 = limitTickEvents m r2 := by
  obtain ⟨hp, hl, hn, hb, hh, hs⟩ := check_limit_keeps_config m raw
  simp only [limitTickEvents, hp, hl, hn, hb, hh, hs]

theorem foldl_check_limit_events (samples : List Nat) (m : MU) :
    (samples.foldl _check_limit m).events =
      m.events ++ samples.flatMap (limitTickEvents m) := by
  induction samples generalizing m with
  | nil => simp
  | cons r rest ih =>
      rw [List.foldl_cons, ih, check_limit_events, List.flatMap_cons, List.append_assoc]
      congr 2
      apply List.flatMap_congr
      intro r2 _
      exact limitTick_congr m r r2

theorem limitTick_counts (m : MU) (r : Nat) (hm : m.notify_mails ≠ []) :
    mailCount (limitTickEvents m r) =
      (if get_virtual_size m.platform r > m.limit then 1 else 0) ∧
    errorLogCount (limitTickEvents m r) =
      (if get_virtual_size m.platform r > m.limit then 1 else 0) ∧
    setStatCount "memusage/limit_reached" (limitTickEvents m r) =
      (if get_virtual_size m.platform r > m.limit then 1 else 0) ∧
    setStatCount "memusage/limit_notified" (limitTickEvents m r) =
      (if get_virtual_size m.platform r > m.limit then 1 else 0) := by
  by_cases h1 : get_virtual_size m.platform r > m.limit <;>
    by_cases h3 : m.spiderActive <;>
      simp [limitTickEvents, mailCount, errorLogCount, setStatCount, h1, h3, hm,
        List.countP_cons, List.countP_append]

theorem countP_bind_limitTick (m : MU) (samples : List Nat) (p : Event → Bool)
    (hk : ∀ r, (limitTickEvents m r).countP p =
        if get_virtual_size m.platform r > m.limit then 1 else 0) :
    (samples.flatMap (limitTickEvents m)).countP p =
      samples.countP fun r => decide (get_virtual_size m.platform r > m.limit) := by
  induction samples with
  | nil => simp
  | cons r rest ih =>
      rw [List.flatMap_cons, List.countP_append, hk r, ih, List.countP_cons]
      by_cases h : get_virtual_size m.platform r > m.limit <;> simp [h] <;> omega

end MemUsage

namespace MemUsage

theorem check_warning_of_warned (m : MU) (raw : Nat) (h : m.warned = true) :
    _check_warning m raw = m := by
  simp [_check_warning, h]

theorem foldl_check_warning_of_warned (samples : List Nat) (m : MU)
    (h : m.warned = true) :
    samples.foldl _check_warning m = m := by
  induction samples with
  | nil => rfl
  | cons r rest ih =>
      rw [List.foldl_cons, check_warning_of_warned m r h]
      exact ih

theorem check_warning_of_no_breach (m : MU) (raw : Nat) (hw : m.warned = false)
    (h : ¬ get_virtual_size m.platform raw > m.warning) :
    _check_warning m raw = m := by
  simp [_check_warning, hw, h]

theorem check_warning_of_breach (m : MU) (raw : Nat) (hw : m.warned = false)
    (h : get_virtual_size m.platform raw > m.warning) :
    (_check_warning m raw).warned = true ∧
    (_check_warning m raw).events = m.events ++ warningTickEvents m := by
  by_cases h2 : m.notify_mails = [] <;>
    simp [_check_warning, warningTickEvents, set_value, logEvent, hw, h, h2]

theorem warningTick_log_count (m : MU) :
    warningLogCount (warningTickEvents m) = 1 := by
  by_cases h2 : m.notify_mails = [] <;>
    simp [warningTickEvents, warningLogCount, h2, List.countP_cons, List.countP_append]

end MemUsage

/-- Claim C4, counterexample to the claim as stated: with a configured 1 MiB
limit, one mail recipient, and two consecutive limit-check ticks whose sample
(2048 KiB, normalized to 2 MiB) exceeds the limit, the code emits TWO report
emails and sets each of `memusage/limit_reached` and `memusage/limit_notified`
twice, not exactly once for the breach. -/
theorem claim_C4_limit_repeats_counterexample :
    MemUsage.mailCount (([2048, 2048].foldl MemUsage._check_limit MemUsage.muCex).events) = 2 ∧
    ¬ MemUsage.mailCount (([2048, 2048].foldl MemUsage._check_limit MemUsage.muCex).events) = 1 ∧
    MemUsage.setStatCount "memusage/limit_reached"
      (([2048, 2048].foldl MemUsage._check_limit MemUsage.muCex).events) = 2 ∧
    MemUsage.setStatCount "memusage/limit_notified"
      (([2048, 2048].foldl MemUsage._check_limit MemUsage.muCex).events) = 2 := by
  decide

/-- Claim C4 (amended): `_check_limit` carries no once-per-breach guard: for a
configured nonzero limit with mail recipients configured, EVERY limit-check
tick whose normalized sample exceeds the limit emits one limit-breach
notification (a severity-error log record and one report email) and one write
of each of the `memusage/limit_reached` and `memusage/limit_notified`
statistics, so across a sequence of ticks the number of breach notifications
equals the number of ticks above the limit (one per tick, not one per breach
episode); repetition in practice is bounded only by the shutdown each breach
tick requests. -/
theorem claim_C4_limit_notifies_every_tick (m : MemUsage.MU) (samples : List Nat)
    (hlimit : m.limit ≠ 0) (hm : m.notify_mails ≠ []) :
    MemUsage.mailCount ((samples.foldl MemUsage._check_limit m).events) =
      MemUsage.mailCount m.events
        + samples.countP (fun r => decide (MemUsage.get_virtual_size m.platform r > m.limit)) ∧
    MemUsage.errorLogCount ((samples.foldl MemUsage._check_limit m).events) =
      MemUsage.errorLogCount m.events
        + samples.countP (fun r => decide (MemUsage.get_virtual_size m.platform r > m.limit)) ∧
    MemUsage.setStatCount "memusage/limit_reached"
        ((samples.foldl MemUsage._check_limit m).events) =
      MemUsage.setStatCount "memusage/limit_reached" m.events
        + samples.countP (fun r => decide (MemUsage.get_virtual_size m.platform r > m.limit)) ∧
    MemUsage.setStatCount "memusage/limit_notified"
        ((samples.foldl MemUsage._check_limit m).events) =
      MemUsage.setStatCount "memusage/limit_notified" m.events
        + samples.countP (fun r => decide (MemUsage.get_virtual_size m.platform r > m.limit)) := by
  have hev := MemUsage.foldl_check_limit_events samples m
  refine ⟨?_, ?_, ?_, ?_⟩
  · rw [hev]
    simp only [MemUsage.mailCount]
    rw [List.countP_append,
      MemUsage.countP_bind_limitTick m samples _ (fun r => (MemUsage.limitTick_counts m r hm).1)]
  · rw [hev]
    simp only [MemUsage.errorLogCount]
    rw [List.countP_append,
      MemUsage.countP_bind_limitTick m samples _ (fun r => (MemUsage.limitTick_counts m r hm).2.1)]
  · rw [hev]
    simp only [MemUsage.setStatCount]
    rw [List.countP_append,
      MemUsage.countP_bind_limitTick m samples _ (fun r => (MemUsage.limitTick_counts m r hm).2.2.1)]
  · rw [hev]
    simp only [MemUsage.setStatCount]
    rw [List.countP_append,
      MemUsage.countP_bind_limitTick m samples _ (fun r => (MemUsage.limitTick_counts m r hm).2.2.2)]

theorem claim_C4_limit_notifies_every_tick_witness :
    MemUsage.muCex.limit ≠ 0 ∧ MemUsage.muCex.notify_mails ≠ [] ∧
    MemUsage.mailCount (([2048, 100, 2048].foldl MemUsage._check_limit MemUsage.muCex).events) =
      MemUsage.mailCount MemUsage.muCex.events
        + [2048, 100, 2048].countP
            (fun r => decide (MemUsage.get_virtual_size MemUsage.muCex.platform r > MemUsage.muCex.limit)) :=
  ⟨by decide, by decide,
    (claim_C4_limit_notifies_every_tick MemUsage.muCex [2048, 100, 2048]
      (by decide) (by decide)).1⟩

/-- Claim C5: the warning check is a once-per-run event.  A tick with the
warned flag already set does nothing; a tick whose normalized sample exceeds a
configured nonzero warning threshold (from an unwarned state) appends exactly
the block recording `memusage/warning_reached`, the severity-warning log
record, optionally the report email with `memusage/warning_notified`, and
latches the warned flag; consequently across any sequence of ticks the number
of warning notifications grows by one exactly when some tick exceeds the
threshold, and by zero otherwise. -/
theorem claim_C5_warning_once (m : MemUsage.MU) (samples : List Nat)
    (hw : m.warned = false) (hwarn : m.warning ≠ 0) :
    (∀ (m2 : MemUsage.MU) (r : Nat), m2.warned = true →
        MemUsage._check_warning m2 r = m2) ∧
    (∀ r : Nat, MemUsage.get_virtual_size m.platform r > m.warning →
        (MemUsage._check_warning m r).warned = true ∧
        (MemUsage._check_warning m r).events = m.events ++ MemUsage.warningTickEvents m) ∧
    MemUsage.warningLogCount ((samples.foldl MemUsage._check_warning m).events) =
      MemUsage.warningLogCount m.events
        + (if samples.any (fun r => decide (MemUsage.get_virtual_size m.platform r > m.warning))
           then 1 else 0) := by
  refine ⟨fun m2 r h => MemUsage.check_warning_of_warned m2 r h,
          fun r h => MemUsage.check_warning_of_breach m r hw h, ?_⟩
  induction samples with
  | nil => simp
  | cons r rest ih =>
      rw [List.foldl_cons]
      by_cases h : MemUsage.get_virtual_size m.platform r > m.warning
      · obtain ⟨hwd, hevs⟩ := MemUsage.check_warning_of_breach m r hw h
        rw [MemUsage.foldl_check_warning_of_warned rest _ hwd, hevs]
        have hc := MemUsage.warningTick_log_count m
        simp only [MemUsage.warningLogCount] at hc ⊢
        rw [List.countP_append, hc]
        simp [h]
      · rw [MemUsage.check_warning_of_no_breach m r hw h]
        rw [ih]
        simp [List.any_cons, h]

theorem claim_C5_warning_once_witness :
    MemUsage.muCex.warned = false ∧ MemUsage.muCex.warning ≠ 0 ∧
    MemUsage.warningLogCount
        (([100, 100, 2048, 2048, 2048].foldl MemUsage._check_warning MemUsage.muCex).events) =
      MemUsage.warningLogCount MemUsage.muCex.events
        + (if [100, 100, 2048, 2048, 2048].any
              (fun r => decide (MemUsage.get_virtual_size MemUsage.muCex.platform r > MemUsage.muCex.warning))
           then 1 else 0) :=
  ⟨by decide, by decide,
    (claim_C5_warning_once MemUsage.muCex [100, 100, 2048, 2048, 2048]
      (by decide) (by decide)).2.2⟩

/-- Claim C7: memory-sample normalization is platform-conditional: on any
platform other than darwin (which reports `ru_maxrss` in kibibytes) a raw peak
sample of 2048 normalizes to `2048 * 1024` bytes, while on darwin (bytes) the
raw sample 2048 is returned unchanged; and every consumer of a sample
(`update`, `_check_limit`, `_check_warning`) depends on the raw sample only
through this normalized value, so the same normalized value is used everywhere
a sample is compared or reported. -/
theorem claim_C7_sample_normalization :
    (∀ p : String, p ≠ "darwin" → MemUsage.get_virtual_size p 2048 = 2048 * 1024) ∧
    MemUsage.get_virtual_size "darwin" 2048 = 2048 ∧
    (∀ (m : MemUsage.MU) (r1 r2 : Nat),
        MemUsage.get_virtual_size m.platform r1 = MemUsage.get_virtual_size m.platform r2 →
          MemUsage.update m r1 = MemUsage.update m r2 ∧
          MemUsage._check_limit m r1 = MemUsage._check_limit m r2 ∧
          MemUsage._check_warning m r1 = MemUsage._check_warning m r2) := by
  refine ⟨fun p hp => by simp [MemUsage.get_virtual_size, hp],
          by simp [MemUsage.get_virtual_size], ?_⟩
  intro m r1 r2 h
  refine ⟨?_, ?_, ?_⟩
  · unfold MemUsage.update
    rw [h]
  · unfold MemUsage._check_limit
    rw [h]
  · unfold MemUsage._check_warning
    rw [h]

theorem claim_C7_sample_normalization_witness :
    MemUsage.get_virtual_size "linux" 2048 = 2048 * 1024 ∧
    MemUsage.get_virtual_size "darwin" 2048 = 2048 :=
  ⟨claim_C7_sample_normalization.1 "linux" (by decide),
   claim_C7_sample_normalization.2.1⟩

namespace Reactor

theorem set_loop_current (lp : Option String) (s : RState) :
    (set_asyncio_event_loop lp s).2.currentLoop =
      some (set_asyncio_event_loop lp s).1 := by
  cases lp with
  | none => cases h : s.currentLoop <;> simp [set_asyncio_event_loop, h]
  | some p =>
      cases h : s.currentLoop with
      | none =>
          simp only [set_asyncio_event_loop, h]
          split <;> simp_all
      | some l =>
          simp only [set_asyncio_event_loop, h]
          split <;> simp_all

theorem set_loop_cls (p : String) (s : RState) :
    (set_asyncio_event_loop (some p) s).1.cls = p := by
  cases h : s.currentLoop with
  | none =>
      simp only [set_asyncio_event_loop, h]
      split <;> simp_all
  | some l =>
      simp only [set_asyncio_event_loop, h]
      split <;> simp_all

theorem set_loop_stable (lp : Option String) (s : RState) (el : LoopInst)
    (hc : s.currentLoop = some el) (hcls : ∀ p, lp = some p → el.cls = p) :
    set_asyncio_event_loop lp s = (el, s) := by
  cases lp with
  | none => simp [set_asyncio_event_loop, hc]
  | some p => simp [set_asyncio_event_loop, hc, hcls p rfl]

theorem install_reactor_repeat (r : String) (lp : Option String) (s : RState) :
    install_reactor r lp (install_reactor r lp s) = install_reactor r lp s := by
  by_cases hr : r = _asyncio_reactor_path
  · have hcls : ∀ p, lp = some p → (set_asyncio_event_loop lp s).1.cls = p := by
      intro p hp
      subst hp
      exact set_loop_cls p s
    have hcur := set_loop_current lp s
    cases hi : (set_asyncio_event_loop lp s).2.installedReactor with
    | none =>
        have h1 : install_reactor r lp s =
            { (set_asyncio_event_loop lp s).2 with
                installedReactor := some _asyncio_reactor_path,
                reactorLoop := some (set_asyncio_event_loop lp s).1 } := by
          simp [install_reactor, hr, asyncioreactor_install, hi]
        rw [h1]
        have hstep := set_loop_stable lp
            { (set_asyncio_event_loop lp s).2 with
                installedReactor := some _asyncio_reactor_path,
                reactorLoop := some (set_asyncio_event_loop lp s).1 }
            ((set_asyncio_event_loop lp s).1) (by simpa using hcur) hcls
        simp [install_reactor, hr, hstep, asyncioreactor_install]
    | some q =>
        have h1 : install_reactor r lp s = (set_asyncio_event_loop lp s).2 := by
          simp [install_reactor, hr, asyncioreactor_install, hi]
        rw [h1]
        have hstep := set_loop_stable lp ((set_asyncio_event_loop lp s).2)
            ((set_asyncio_event_loop lp s).1) hcur hcls
        simp [install_reactor, hr, hstep, asyncioreactor_install, hi]
  · cases hi : s.installedReactor with
    | none => simp [install_reactor, hr, module_install, hi]
    | some q => simp [install_reactor, hr, module_install, hi]

end Reactor

/-- Claim C3: `install_reactor` never raises — every exception path inside it
(`ReactorAlreadyInstalledError` from either installer) is suppressed, which is
why the embedding is a total function on states — and calling it a second time
with the same reactor identity and the same event-loop identity is a complete
no-op: the state is unchanged, in particular the bound event loop instance is
unchanged and the loop-construction counter is unchanged, because re-resolving
the same event-loop identity returns the already-bound loop instead of
constructing a new one, and the already-installed-reactor error is swallowed. -/
theorem claim_C3_install_reactor_idempotent (r : String) (lp : Option String)
    (s : Reactor.RState) :
    Reactor.install_reactor r lp (Reactor.install_reactor r lp s) =
      Reactor.install_reactor r lp s ∧
    (Reactor.install_reactor r lp (Reactor.install_reactor r lp s)).currentLoop =
      (Reactor.install_reactor r lp s).currentLoop ∧
    (Reactor.install_reactor r lp (Reactor.install_reactor r lp s)).nextLoopId =
      (Reactor.install_reactor r lp s).nextLoopId := by
  have h := Reactor.install_reactor_repeat r lp s
  exact ⟨h, by rw [h], by rw [h]⟩

/-- Claim C6: `verify_installed_reactor` fails with the reactor-mismatch
`RuntimeError` whenever no reactor is installed, and whenever the installed
reactor implementation differs from the expected identity, in which case the
error message lists both the installed and the requested identity (each occurs
verbatim inside the message); when the installed reactor matches the expected
identity it returns normally. -/
theorem claim_C6_verify_installed_reactor (s : Reactor.RState) (path : String) :
    (s.installedReactor = none →
        Reactor.verify_installed_reactor path s =
          Except.error "verify_installed_reactor() called without an installed reactor.") ∧
    (∀ installed, s.installedReactor = some installed → installed ≠ path →
        Reactor.verify_installed_reactor path s =
          Except.error ("The installed reactor (" ++ Reactor.global_object_name installed
            ++ ") does not match the requested one (" ++ path ++ ")") ∧
        installed.data <:+: ("The installed reactor ("
            ++ Reactor.global_object_name installed
            ++ ") does not match the requested one (" ++ path ++ ")").data ∧
        path.data <:+: ("The installed reactor ("
            ++ Reactor.global_object_name installed
            ++ ") does not match the requested one (" ++ path ++ ")").data) ∧
    (s.installedReactor = some path →
        Reactor.verify_installed_reactor path s = Except.ok ()) := by
  refine ⟨?_, ?_, ?_⟩
  · intro h
    simp [Reactor.verify_installed_reactor, h]
  · intro installed hi hne
    refine ⟨by simp [Reactor.verify_installed_reactor, hi, hne], ?_, ?_⟩
    · exact ⟨"The installed reactor (".data,
        (") does not match the requested one (" ++ path ++ ")").data,
        by simp [Reactor.global_object_name, String.data_append]⟩
    · exact ⟨("The installed reactor (" ++ installed
          ++ ") does not match the requested one (").data, ")".data,
        by simp [Reactor.global_object_name, String.data_append]⟩
  · intro h
    simp [Reactor.verify_installed_reactor, h]

theorem claim_C6_verify_installed_reactor_witness :
    Reactor.verify_installed_reactor "C.D" ⟨some "A.B", none, none, 0⟩ =
      Except.error ("The installed reactor (" ++ Reactor.global_object_name "A.B"
        ++ ") does not match the requested one (" ++ "C.D" ++ ")") ∧
    Reactor.verify_installed_reactor "A.B" ⟨some "A.B", none, none, 0⟩ = Except.ok () ∧
    Reactor.verify_installed_reactor "C.D" ⟨none, none, none, 0⟩ =
      Except.error "verify_installed_reactor() called without an installed reactor." :=
  ⟨((claim_C6_verify_installed_reactor ⟨some "A.B", none, none, 0⟩ "C.D").2.1
      "A.B" rfl (by decide)).1,
   (claim_C6_verify_installed_reactor ⟨some "A.B", none, none, 0⟩ "A.B").2.2 rfl,
   (claim_C6_verify_installed_reactor ⟨none, none, none, 0⟩ "C.D").1 rfl⟩

/-- Claim C8: `listen_tcp` raises `ValueError` when the port range has more
than two entries; with an empty range it performs the any-free-port bind
(port 0) and returns its listener; with range `[8000, 8002]` where binds on
8000 and 8001 raise it returns the listener bound by the attempt on 8002; and
with range `[8000, 8001]` where both binds raise it re-raises the bind error
from port 8001, the last port attempted. -/
theorem claim_C8_listen_tcp (pr : List Int) (tb : Int → Except String Listen.Port)
    (p0 p2 : Listen.Port) (e0 e1 : String)
    (hlen : pr.length > 2)
    (h0 : tb 0 = Except.ok p0)
    (h8000 : tb 8000 = Except.error e0)
    (h8001 : tb 8001 = Except.error e1)
    (h8002 : tb 8002 = Except.ok p2) :
    Listen.listen_tcp pr tb = Except.error (Listen.ListenError.valueError pr) ∧
    Listen.listen_tcp [] tb = Except.ok (some p0) ∧
    Listen.listen_tcp [8000, 8002] tb = Except.ok (some p2) ∧
    Listen.listen_tcp [8000, 8001] tb =
      Except.error (Listen.ListenError.cannotListen 8001 e1) := by
  refine ⟨?_, ?_, ?_, ?_⟩
  · rcases pr with _ | ⟨a, _ | ⟨b, _ | ⟨c, rest⟩⟩⟩
    · simp at hlen
    · simp at hlen
    · simp at hlen
    · rfl
  · simp [Listen.listen_tcp, h0]
  · have hr : Listen.pyRange 8000 8003 = [8000, 8001, 8002] := by decide
    have h3 : (8002 : Int) + 1 = 8003 := by decide
    simp [Listen.listen_tcp, h3, hr, Listen.listenLoop, h8000, h8001, h8002]
  · have hr : Listen.pyRange 8000 8002 = [8000, 8001] := by decide
    have h2 : (8001 : Int) + 1 = 8002 := by decide
    simp [Listen.listen_tcp, h2, hr, Listen.listenLoop, h8000, h8001]

theorem claim_C8_listen_tcp_witness :
    Listen.tbBusy 0 = Except.ok ⟨0⟩ ∧
    Listen.listen_tcp [7, 8, 9] Listen.tbBusy =
      Except.error (Listen.ListenError.valueError [7, 8, 9]) ∧
    Listen.listen_tcp [8000, 8002] Listen.tbBusy = Except.ok (some ⟨8002⟩) ∧
    Listen.listen_tcp [8000, 8001] Listen.tbBusy =
      Except.error (Listen.ListenError.cannotListen 8001 "port in use") :=
  ⟨rfl,
   (claim_C8_listen_tcp [7, 8, 9] Listen.tbBusy ⟨0⟩ ⟨8002⟩ "port in use" "port in use"
      (by decide) rfl rfl rfl rfl).1,
   (claim_C8_listen_tcp [7, 8, 9] Listen.tbBusy ⟨0⟩ ⟨8002⟩ "port in use" "port in use"
      (by decide) rfl rfl rfl rfl).2.2.1,
   (claim_C8_listen_tcp [7, 8, 9] Listen.tbBusy ⟨0⟩ ⟨8002⟩ "port in use" "port in use"
      (by decide) rfl rfl rfl rfl).2.2.2⟩

/-- Claim C10: for a two-element port range `[lo, hi]` with `lo > hi`, the
`for` loop of `listen_tcp` iterates over an empty range, so no bind is
attempted at all — the result does not depend on the bind environment `tb` —
and the function falls off the end of the loop, returning Python `None`
(`Except.ok none`) instead of a listener and raising no error. -/
theorem claim_C10_listen_tcp_reversed_range (lo hi : Int)
    (tb : Int → Except String Listen.Port) (h : hi < lo) :
    Listen.listen_tcp [lo, hi] tb = Except.ok none := by
  have hr : Listen.pyRange lo (hi + 1) = [] := by
    unfold Listen.pyRange
    have h0 : (hi + 1 - lo).toNat = 0 := by omega
    rw [h0]
    rfl
  simp [Listen.listen_tcp, hr, Listen.listenLoop]

theorem claim_C10_listen_tcp_reversed_range_witness :
    Listen.listen_tcp [8002, 8000] Listen.tbBusy = Except.ok none :=
  claim_C10_listen_tcp_reversed_range 8002 8000 Listen.tbBusy (by decide)
